/- Verification of the Tiger-OS/nanos core layer: the drift-corrected clock
   (src/runtime/clock.h) and the aarch64 trap/interrupt dispatch
   (src/aarch64/interrupt.c), shallowly embedded in Lean.

   Machine integers are embedded as Nat (u64, reduced mod 2^64 where C
   wraps) and Int (s64; signed overflow is undefined behaviour in C, so s64
   sums are modelled as exact integers). -/
import Mathlib

namespace Nanos

/-- Modulus of 64-bit machine arithmetic. -/
def U64MOD : Nat := 2 ^ 64

/-- Wrapping u64 subtraction `a - b` (two's complement). -/
def u64sub (a b : Nat) : Nat := (a + (U64MOD - b % U64MOD)) % U64MOD

/-- Wrapping addition of an s64 to a u64, as C computes `t += drift`. -/
def u64addS (a : Nat) (b : Int) : Nat := (((a : Int) + b) % (U64MOD : Int)).toNat

/- ------------------------------------------------------------------ -/
/- Clock model, from src/runtime/clock.h.                              -/
/- ------------------------------------------------------------------ -/

/-- Number of fractional bits in the fixed-point calibration value
    (CLOCK_CALIBR_BITS in clock.h). -/
def CLOCK_CALIBR_BITS : Nat := 32

/-- The vdso time record `__vdso_dat` as used by clock.h: `temp_cal`, `cal`
    and `last_drift` are s64, the timestamps and `rtc_offset` are u64
    (field types as used by clock.h; the struct declaration lives in
    vdso.h, outside the excerpted sources). -/
structure VdsoDat where
  clock_src : Nat
  rtc_offset : Nat
  temp_cal : Int
  cal : Int
  sync_complete : Nat
  last_raw : Nat
  last_drift : Int
deriving DecidableEq, Repr

/-- clock_calculate_drift from clock.h:
    `cal >= 0 ? (interval * cal) >> 32 : -((interval * -cal) >> 32)`.
    The multiply is u64 (wraps mod 2^64); the logical shift makes the
    result < 2^32, so the conversion back to s64 is the identity in the
    first branch and exact negation in the second. -/
def clock_calculate_drift (interval : Nat) (cal : Int) : Int :=
  if 0 ≤ cal then
    (((interval * cal.toNat) % U64MOD) / 2 ^ CLOCK_CALIBR_BITS : Nat)
  else
    -(((interval * (-cal).toNat) % U64MOD) / 2 ^ CLOCK_CALIBR_BITS : Nat)

/-- clock_get_drift from clock.h, as a function of the vdso record and the
    raw counter reading. -/
def clock_get_drift (d : VdsoDat) (raw : Nat) : Int :=
  if d.temp_cal = 0 ∧ d.cal = 0 then 0
  else if d.sync_complete < raw then
    if d.sync_complete < d.last_raw then
      d.last_drift + clock_calculate_drift (u64sub raw d.last_raw) d.cal
    else
      d.last_drift + clock_calculate_drift (u64sub d.sync_complete d.last_raw) d.temp_cal
        + clock_calculate_drift (u64sub raw d.sync_complete) d.cal
  else
    d.last_drift + clock_calculate_drift (u64sub raw d.last_raw) d.temp_cal

/-- clock_update_drift from clock.h: computes the drift and stores it with
    the raw reading back into the vdso record. -/
def clock_update_drift (d : VdsoDat) (raw : Nat) : Int × VdsoDat :=
  let drift := clock_get_drift d raw
  (drift, { d with last_drift := drift, last_raw := raw })

/-- Clock identifiers of clock.h (Linux-compatible numbering). -/
inductive clock_id where
  | realtime
  | monotonic
  | process_cputime_id
  | thread_cputime_id
  | monotonic_raw
  | realtime_coarse
  | monotonic_coarse
  | boottime
  | realtime_alarm
  | boottime_alarm
deriving DecidableEq, Repr

/-- now from clock.h (KERNEL/BUILD_VDSO configuration): `t_raw` stands for
    the value returned by `apply(platform_monotonic_now)`; returns the
    computed timestamp together with the updated vdso record. -/
def now (id : clock_id) (t_raw : Nat) (d : VdsoDat) : Nat × VdsoDat :=
  if id = clock_id.monotonic_raw then (t_raw, d)
  else
    let r := clock_update_drift d t_raw
    let t := u64addS t_raw r.1
    match id with
    | clock_id.realtime => ((t + d.rtc_offset) % U64MOD, r.2)
    | clock_id.realtime_coarse => ((t + d.rtc_offset) % U64MOD, r.2)
    | _ => (t, r.2)

/-- reset_clock_vdso_dat from clock.h: `rt` is the value returned by
    rtc_gettimeofday(), `t_raw` the raw counter read during the reset. -/
def reset_clock_vdso_dat (rt : Nat) (t_raw : Nat) (d : VdsoDat) : VdsoDat :=
  { d with
    rtc_offset := if rt ≠ 0 then u64sub ((rt * 2 ^ 32) % U64MOD) t_raw else 0,
    temp_cal := 0, cal := 0,
    sync_complete := 0,
    last_raw := 0, last_drift := 0 }

/-- register_platform_clock_now from clock.h: records the clock source id
    and resets the vdso record (the closure assignment to
    platform_monotonic_now is represented by `t_raw`, the reading the new
    source yields during the reset). -/
def register_platform_clock_now (id : Nat) (rt : Nat) (t_raw : Nat) (d : VdsoDat) : VdsoDat :=
  reset_clock_vdso_dat rt t_raw { d with clock_src := id }

/- ------------------------------------------------------------------ -/
/- Drift rule exactly as the specification words it (for refinement).  -/
/- ------------------------------------------------------------------ -/

/-- Scale function following the spec's words: a sign-preserving
    fixed-point multiply-shift, `(interval * |coeff|) >> 32`, negated when
    `coeff` is negative. -/
def spec_scale (interval : Int) (coeff : Int) : Int :=
  if 0 ≤ coeff then interval * coeff / 2 ^ 32
  else -(interval * -coeff / 2 ^ 32)

/-- Three-case piecewise drift rule following the spec's words. -/
def spec_drift (prev_drift last_raw boundary tc sc r : Int) : Int :=
  if r ≤ boundary then prev_drift + spec_scale (r - last_raw) tc
  else if boundary < last_raw then prev_drift + spec_scale (r - last_raw) sc
  else prev_drift + spec_scale (boundary - last_raw) tc + spec_scale (r - boundary) sc

/- ------------------------------------------------------------------ -/
/- Interrupt vector table and dispatch, from src/aarch64/interrupt.c.  -/
/- ------------------------------------------------------------------ -/

/-- MAX_INTERRUPT_VECTORS from interrupt.c. -/
def MAX_INTERRUPT_VECTORS : Nat := 256

/-- INTERRUPT_VECTOR_START from interrupt.c. -/
def INTERRUPT_VECTOR_START : Nat := 32

/-- State of the interrupt controller (gic) lines touched by interrupt.c:
    gic_enable_int / gic_disable_int, gic_clear_pending_int,
    gic_set_int_priority. -/
structure GicState where
  enabled : Nat → Bool
  pendingInt : Nat → Bool
  priority : Nat → Nat

/-- Registry state of interrupt.c: the per-vector handler chains
    (`handlers`, an array of intrusive lists iterated in insertion order)
    plus the controller state. Handlers are opaque thunks, represented by
    ids. Modelled from the spec: the intrusive list primitives
    (list_insert_before on the head of a circular list appends at the
    tail; list_foreach visits in insertion order) are declared outside the
    excerpted sources, and §4.1 of the spec describes `register` as
    appending the handler. -/
structure IntState where
  handlers : Nat → List Nat
  gic : GicState

/-- register_interrupt from interrupt.c: append the handler to the
    vector's chain; if the vector had no prior handler, set controller
    priority 0, clear stale pending state and enable the line. (The
    inthandler allocation is external and assumed to succeed; its failure
    asserts.) -/
def register_interrupt (s : IntState) (vector : Nat) (t : Nat) : IntState :=
  let initialized := s.handlers vector ≠ []
  let handlersNew := fun i => if i = vector then s.handlers vector ++ [t] else s.handlers i
  if initialized then { s with handlers := handlersNew }
  else
    { handlers := handlersNew,
      gic :=
        { enabled := fun i => if i = vector then true else s.gic.enabled i,
          pendingInt := fun i => if i = vector then false else s.gic.pendingInt i,
          priority := fun i => if i = vector then 0 else s.gic.priority i } }

/-- unregister_interrupt from interrupt.c: disable the line first, then
    halt (`none`) if no handler is registered, else delete and free every
    handler of the vector. -/
def unregister_interrupt (s : IntState) (vector : Nat) : Option IntState :=
  let gicNew := { s.gic with enabled := fun i => if i = vector then false else s.gic.enabled i }
  if s.handlers vector = [] then none
  else some
    { handlers := fun i => if i = vector then [] else s.handlers i,
      gic := gicNew }

/-- Observable events of the irq dispatch loop: a handler invocation
    (`apply(h->t)`) or an end-of-interrupt (`gic_eoi(i)`). -/
inductive IntEvent where
  | invoke (t : Nat)
  | eoi (i : Nat)
deriving DecidableEq, Repr

/-- Body of the while loop of irq_handler in interrupt.c for one pending
    interrupt id `i` returned by gic_dispatch_int: halt (`none`) if `i`
    is at least MAX_INTERRUPT_VECTORS or its handler chain is empty,
    otherwise invoke every registered handler in chain order and send one
    end-of-interrupt. -/
def irq_dispatch_one (handlers : Nat → List Nat) (i : Nat) : Option (List IntEvent) :=
  if MAX_INTERRUPT_VECTORS ≤ i then none
  else if handlers i = [] then none
  else some ((handlers i).map IntEvent.invoke ++ [IntEvent.eoi i])

/-- The drain loop of irq_handler over the sequence of pending ids the
    gic reports before INTID_NO_PENDING. -/
def irq_handler_loop (handlers : Nat → List Nat) : List Nat → Option (List IntEvent)
  | [] => some []
  | i :: rest =>
    match irq_dispatch_one handlers i with
    | none => none
    | some evs =>
      match irq_handler_loop handlers rest with
      | none => none
      | some evs2 => some (evs ++ evs2)

/-- Invariant of the vector table (spec §3): a hardware line is enabled at
    the controller exactly when the vector's handler chain is non-empty. -/
def IntInvariant (s : IntState) : Prop :=
  ∀ v, s.gic.enabled v = true ↔ s.handlers v ≠ []

/- ------------------------------------------------------------------ -/
/- Synchronous exception dispatch, from src/aarch64/interrupt.c.       -/
/- ------------------------------------------------------------------ -/

/-- Trap frame fields used by synchronous_handler: x8, the vector slot,
    the combined spsr/esr word (esr in the upper 32 bits), the fault
    handler slot (0 when none) and the frame-full flag. -/
structure Frame where
  x8 : Nat
  vector : Nat
  esr_spsr : Nat
  fault_handler : Nat
  full : Bool
deriving DecidableEq, Repr

/-- esr_from_frame: the esr is the upper 32 bits of the combined
    spsr/esr frame word. -/
def esr_from_frame (f : Frame) : Nat := f.esr_spsr / 2 ^ 32

/-- Modelled from the spec: the ESR_EC field (exception class) occupies
    bits 26-31 of the esr; the field macros live in the aarch64 headers
    outside the excerpted sources. -/
def esr_ec (esr : Nat) : Nat := esr / 2 ^ 26 % 2 ^ 6

/-- Modelled from the spec: ESR_IL is bit 25 of the esr (instruction
    length, 1 for every AArch64 supervisor call). -/
def esr_il (esr : Nat) : Nat := esr / 2 ^ 25 % 2

/-- Modelled from the spec: the 16-bit immediate operand of a supervisor
    call is the low 16 bits of the esr's ISS field (bits 0-15). -/
def esr_iss_imm16 (esr : Nat) : Nat := esr % 2 ^ 16

/-- Modelled from the spec: ESR_EC_SVC_AARCH64, the exception-class code
    of an AArch64 supervisor call (0b010101). -/
def ESR_EC_SVC_AARCH64 : Nat := 0x15

/-- Condition under which synchronous_handler recognizes a syscall: a
    supervisor call (with the mandatory 32-bit instruction-length bit)
    whose immediate operand is zero. -/
def is_svc_zero_imm (esr : Nat) : Prop :=
  esr_ec esr = ESR_EC_SVC_AARCH64 ∧ esr_il esr ≠ 0 ∧ esr_iss_imm16 esr = 0

instance (esr : Nat) : Decidable (is_svc_zero_imm esr) := by
  unfold is_svc_zero_imm; infer_instance

/-- Per-core state used by synchronous_handler: the running frame and the
    dedicated kernel-context frame. -/
structure CpuState where
  running_frame : Frame
  kernel_frame : Frame
deriving DecidableEq, Repr

/-- Outcome of synchronous_handler. `syscallTransfer arg running` records
    a switch of the per-core current frame to `running` followed by a
    non-returning transfer to the syscall entry with `arg` (the code
    halts should that transfer return). The fault outcomes record the
    non-syscall paths: resume at the frame a fault handler returned,
    yield to the run loop, or hang with diagnostics when no fault handler
    is installed. -/
inductive SyncOutcome where
  | syscallTransfer (arg : Frame) (running : Frame)
  | faultResume (retframe : Frame)
  | faultRunloop (f : Frame)
  | unhandledHalt (f : Frame)
deriving DecidableEq, Repr

/-- synchronous_handler from interrupt.c. `fh_result` models applying the
    installed fault handler closure to the frame (external code). -/
def synchronous_handler (ci : CpuState) (fh_result : Frame → Option Frame) : SyncOutcome :=
  let f := ci.running_frame
  let esr := esr_from_frame f
  if is_svc_zero_imm esr then
    SyncOutcome.syscallTransfer { f with vector := f.x8 } ci.kernel_frame
  else if f.fault_handler ≠ 0 then
    match fh_result f with
    | some retframe => SyncOutcome.faultResume retframe
    | none => SyncOutcome.faultRunloop f
  else SyncOutcome.unhandledHalt f

/- ------------------------------------------------------------------ -/
/- Diagnostic stack walks, from src/aarch64/interrupt.c.               -/
/- ------------------------------------------------------------------ -/

/-- Mapped memory: a partial map from byte addresses of u64-aligned
    words to their contents; `none` is unmapped. validate_virtual of a
    word succeeds exactly when the word is mapped. -/
def Mem := Nat → Option Nat

/-- frame_trace from interrupt.c (fuelled with its 16-frame bound):
    stops when fp drops below 4096, when validate_virtual fails on
    fp or fp+8, or when the saved return address fp[1] is zero;
    otherwise records the return address and follows fp[0]. -/
def frame_trace_go (mem : Mem) : Nat → Nat → List Nat
  | 0, _ => []
  | fuel + 1, fp =>
    if fp < 4096 then []
    else
      match mem fp, mem (fp + 8) with
      | some w0, some w1 =>
        if w1 = 0 then [] else w1 :: frame_trace_go mem fuel w0
      | _, _ => []

/-- frame_trace: the returned list is the sequence of return addresses
    printed. -/
def frame_trace (mem : Mem) (fp : Nat) : List Nat := frame_trace_go mem 16 fp

/-- STACK_TRACE_DEPTH from interrupt.c. -/
def STACK_TRACE_DEPTH : Nat := 128

/-- print_stack's scan loop from interrupt.c (fuelled with its 128-entry
    bound): starting at the frame's saved sp, while the address stays
    below 0xffff000000020000 it dereferences `*x++` — performing no
    validity check — and prints the word. The returned list records each
    dereference: the address read and what the memory map holds there
    (`none` marking a read of unmapped memory). -/
def print_stack_go (mem : Mem) : Nat → Nat → List (Nat × Option Nat)
  | 0, _ => []
  | fuel + 1, x =>
    if x < 0xffff000000020000 then (x, mem x) :: print_stack_go mem fuel (x + 8)
    else []

/-- print_stack's dereference trace, from the frame's saved sp. -/
def print_stack_derefs (mem : Mem) (sp : Nat) : List (Nat × Option Nat) :=
  print_stack_go mem STACK_TRACE_DEPTH sp

/-- Piecewise-linear integrated drift line with transitional rate `tk`
    before boundary `B` and steady rate `sk` after it, evaluated at `x`. -/
def drift_line (tk sk : Int) (B x : Nat) : Int :=
  tk * (min x B : Nat) + sk * ((x : Int) - (min x B : Nat))

/- ------------------------------------------------------------------ -/
/- Concrete states used by witnesses and counterexamples.              -/
/- ------------------------------------------------------------------ -/

/-- Calibration state exhibiting drift path-dependence: steady
    coefficient 2^31 (rate one half), boundary 0, last raw reading 0. -/
def d6cex : VdsoDat :=
  { clock_src := 0, rtc_offset := 0, temp_cal := 0, cal := 2 ^ 31,
    sync_complete := 0, last_raw := 0, last_drift := 0 }

/-- Calibration state with integral rates: transitional rate 2, steady
    rate 3, boundary 50, last reading 10. -/
def d6wit : VdsoDat :=
  { clock_src := 0, rtc_offset := 0, temp_cal := 2 * 2 ^ 32, cal := 3 * 2 ^ 32,
    sync_complete := 50, last_raw := 10, last_drift := 7 }

/-- Calibration state with a stale last reading, used against C7. -/
def d7cex : VdsoDat :=
  { clock_src := 0, rtc_offset := 0, temp_cal := 0, cal := 0,
    sync_complete := 0, last_raw := 5, last_drift := 0 }

/-- Calibration state with both coefficients zero but nonzero stored
    drift history and wall-clock offset. -/
def d10wit : VdsoDat :=
  { clock_src := 0, rtc_offset := 7, temp_cal := 0, cal := 0,
    sync_complete := 3, last_raw := 2, last_drift := 9 }

/-- Calibration state for the C2 witness: transitional coefficient 5,
    steady coefficient -2^31, boundary 1000, last reading 10. -/
def d2wit : VdsoDat :=
  { clock_src := 0, rtc_offset := 0, temp_cal := 5, cal := -(2 ^ 31),
    sync_complete := 1000, last_raw := 10, last_drift := 100 }

/-- Empty registry with every line disabled. -/
def s0wit : IntState :=
  { handlers := fun _ => [],
    gic := { enabled := fun _ => false, pendingInt := fun _ => true,
             priority := fun _ => 7 } }

/-- Handler table with two handlers registered on vector 45. -/
def H1wit : Nat → List Nat := fun i => if i = 45 then [7, 8] else []

/-- Registry after registering handler 7 on vector 45 of the empty
    registry. -/
def s1wit : IntState := register_interrupt s0wit 45 7

/-- Registry after unregistering vector 45 again. -/
def s4wit : IntState := (unregister_interrupt s1wit 45).getD s0wit

/-- Discriminator of the syscall outcome of synchronous_handler. -/
def is_syscall_outcome : SyncOutcome → Bool
  | SyncOutcome.syscallTransfer _ _ => true
  | _ => false

/-- Frame trapped by an SVC #0: esr has EC 0x15, IL set, imm16 zero. -/
def svc_frame : Frame :=
  { x8 := 42, vector := 0, esr_spsr := 0x56000000 * 2 ^ 32, fault_handler := 0,
    full := true }

/-- Core about to dispatch the SVC trap. -/
def cpu_wit : CpuState :=
  { running_frame := svc_frame,
    kernel_frame := { x8 := 0, vector := 0, esr_spsr := 0, fault_handler := 0,
                      full := false } }

/- ------------------------------------------------------------------ -/
/- Arithmetic helper lemmas.                                           -/
/- ------------------------------------------------------------------ -/

lemma u64sub_eq {a b : Nat} (hba : b ≤ a) (ha : a < U64MOD) : u64sub a b = a - b := by
  unfold u64sub U64MOD at *
  have hb : b % 2 ^ 64 = b := Nat.mod_eq_of_lt (lt_of_le_of_lt hba ha)
  rw [hb]
  have h2 : a + (2 ^ 64 - b) = (a - b) + 2 ^ 64 := by omega
  rw [h2, Nat.add_mod_right, Nat.mod_eq_of_lt (by omega)]

lemma u64addS_zero {t : Nat} (ht : t < U64MOD) : u64addS t 0 = t := by
  unfold u64addS U64MOD at *
  rw [add_zero, Int.emod_eq_of_lt (by positivity) (by exact_mod_cast ht)]
  simp

/-- Without overflow, clock_calculate_drift computes exactly the
    sign-preserving multiply-shift the spec describes. -/
lemma ccd_eq_spec_scale (i : Nat) (c : Int) (h : i * c.natAbs < U64MOD) :
    clock_calculate_drift i c = spec_scale (i : Int) c := by
  unfold clock_calculate_drift spec_scale CLOCK_CALIBR_BITS
  by_cases hc : 0 ≤ c
  · rw [if_pos hc, if_pos hc]
    have htn : c.toNat = c.natAbs := by omega
    have hca : ((c.natAbs : Nat) : Int) = c := Int.natAbs_of_nonneg hc
    rw [htn, Nat.mod_eq_of_lt h, Int.ofNat_tdiv,
      Int.tdiv_eq_ediv (by positivity) (by positivity)]
    push_cast [hca]
    ring_nf
  · rw [if_neg hc, if_neg hc]
    have htn : (-c).toNat = c.natAbs := by omega
    have hca : ((c.natAbs : Nat) : Int) = -c := by omega
    rw [htn, Nat.mod_eq_of_lt h, neg_inj, Int.ofNat_tdiv,
      Int.tdiv_eq_ediv (by positivity) (by positivity)]
    push_cast [hca]
    ring_nf

/-- Composition of u64 subtraction with the drift multiply, without
    overflow. -/
lemma ccd_sub_cast (a b : Nat) (c : Int) (hba : b ≤ a) (ha : a < U64MOD)
    (hb : a * c.natAbs < U64MOD) :
    clock_calculate_drift (u64sub a b) c = spec_scale ((a : Int) - (b : Int)) c := by
  rw [u64sub_eq hba ha,
    ccd_eq_spec_scale _ _ (lt_of_le_of_lt (Nat.mul_le_mul_right _ (Nat.sub_le a b)) hb)]
  congr 1
  exact Nat.cast_sub hba

/- ------------------------------------------------------------------ -/
/- Claim theorems.                                                     -/
/- ------------------------------------------------------------------ -/

/-- C2: for every raw reading `r` with nonzero calibration, the computed
    drift follows the spec's three-case piecewise rule with the
    sign-preserving multiply-shift scale function (stated for readings
    that do not wrap 64-bit arithmetic: the previous reading does not
    exceed `r` and the fixed-point products fit in a u64). -/
theorem claim2_drift_piecewise (d : VdsoDat) (r : Nat)
    (hcal : ¬(d.temp_cal = 0 ∧ d.cal = 0))
    (hlr : d.last_raw ≤ r) (hr : r < U64MOD)
    (htb : r * d.temp_cal.natAbs < U64MOD)
    (hsb : r * d.cal.natAbs < U64MOD) :
    clock_get_drift d r =
      spec_drift d.last_drift d.last_raw d.sync_complete d.temp_cal d.cal r := by
  unfold clock_get_drift spec_drift
  rw [if_neg hcal]
  by_cases h1 : d.sync_complete < r
  · have hs1 : ¬((r : Int) ≤ (d.sync_complete : Int)) := by exact_mod_cast not_le.mpr h1
    rw [if_pos h1, if_neg hs1]
    by_cases h2 : d.sync_complete < d.last_raw
    · have hs2 : (d.sync_complete : Int) < (d.last_raw : Int) := by exact_mod_cast h2
      rw [if_pos h2, if_pos hs2, ccd_sub_cast _ _ _ hlr hr hsb]
    · have hs2 : ¬((d.sync_complete : Int) < (d.last_raw : Int)) := by exact_mod_cast h2
      rw [if_neg h2, if_neg hs2]
      have hls : d.last_raw ≤ d.sync_complete := not_lt.mp h2
      have hsr : d.sync_complete < U64MOD := lt_trans h1 hr
      have htb2 : d.sync_complete * d.temp_cal.natAbs < U64MOD :=
        lt_of_le_of_lt (Nat.mul_le_mul_right _ (le_of_lt h1)) htb
      rw [ccd_sub_cast _ _ _ hls hsr htb2, ccd_sub_cast _ _ _ (le_of_lt h1) hr hsb]
  · have hs1 : (r : Int) ≤ (d.sync_complete : Int) := by exact_mod_cast not_lt.mp h1
    rw [if_neg h1, if_pos hs1, ccd_sub_cast _ _ _ hlr hr htb]

/-- When the calibration coefficient is an exact integer multiple of 2^32
    (an integral rate), the fixed-point multiply-shift loses nothing. -/
lemma ccd_exact (i : Nat) (k : Int) (h : i * k.natAbs < 2 ^ 32) :
    clock_calculate_drift i (k * 2 ^ 32) = (i : Int) * k := by
  have hAbs : (k * 2 ^ 32).natAbs = k.natAbs * 2 ^ 32 := by
    rw [Int.natAbs_mul]; norm_num
  have h64 : i * (k * 2 ^ 32).natAbs < U64MOD := by
    rw [hAbs, ← Nat.mul_assoc]
    have : i * k.natAbs * 2 ^ 32 < 2 ^ 32 * 2 ^ 32 :=
      (Nat.mul_lt_mul_right (by positivity)).mpr h
    unfold U64MOD
    omega
  rw [ccd_eq_spec_scale _ _ h64]
  unfold spec_scale
  by_cases hk : 0 ≤ k
  · rw [if_pos (by positivity)]
    have hx : (i : Int) * (k * 2 ^ 32) = ((i : Int) * k) * 2 ^ 32 := by ring
    rw [hx, Int.mul_ediv_cancel _ (by norm_num)]
  · have hneg : k * 2 ^ 32 < 0 := mul_neg_of_neg_of_pos (not_le.mp hk) (by positivity)
    rw [if_neg (not_le.mpr hneg)]
    have hx : (i : Int) * -(k * 2 ^ 32) = ((i : Int) * -k) * 2 ^ 32 := by ring
    rw [hx, Int.mul_ediv_cancel _ (by norm_num)]
    ring

/-- With integral rates, clock_get_drift is the increment of the
    integrated drift line between the last reading and the current one. -/
lemma clock_get_drift_exact (d : VdsoDat) (tk sk : Int) (r : Nat)
    (htc : d.temp_cal = tk * 2 ^ 32) (hsc : d.cal = sk * 2 ^ 32)
    (hcal : ¬(d.temp_cal = 0 ∧ d.cal = 0))
    (hlr : d.last_raw ≤ r) (hr : r < U64MOD)
    (hbt : r * tk.natAbs < 2 ^ 32) (hbs : r * sk.natAbs < 2 ^ 32) :
    clock_get_drift d r = d.last_drift +
      (drift_line tk sk d.sync_complete r - drift_line tk sk d.sync_complete d.last_raw) := by
  have hbt' : ∀ a : Nat, a ≤ r → a * tk.natAbs < 2 ^ 32 := fun a ha =>
    lt_of_le_of_lt (Nat.mul_le_mul_right _ ha) hbt
  have hbs' : ∀ a : Nat, a ≤ r → a * sk.natAbs < 2 ^ 32 := fun a ha =>
    lt_of_le_of_lt (Nat.mul_le_mul_right _ ha) hbs
  unfold clock_get_drift
  rw [if_neg hcal, htc, hsc]
  unfold drift_line
  by_cases h1 : d.sync_complete < r
  · have hminr : min r d.sync_complete = d.sync_complete := min_eq_right (le_of_lt h1)
    rw [if_pos h1]
    by_cases h2 : d.sync_complete < d.last_raw
    · have hminl : min d.last_raw d.sync_complete = d.sync_complete :=
        min_eq_right (le_of_lt h2)
      rw [if_pos h2, u64sub_eq hlr hr, ccd_exact _ _ (hbs' _ (Nat.sub_le r _)),
        hminr, hminl]
      push_cast [Nat.cast_sub hlr]
      ring
    · have hls : d.last_raw ≤ d.sync_complete := not_lt.mp h2
      have hminl : min d.last_raw d.sync_complete = d.last_raw := min_eq_left hls
      have hsr : d.sync_complete < U64MOD := lt_trans h1 hr
      rw [if_neg h2, u64sub_eq hls hsr, u64sub_eq (le_of_lt h1) hr,
        ccd_exact _ _ (hbt' _ (le_trans (Nat.sub_le _ _) (le_of_lt h1))),
        ccd_exact _ _ (hbs' _ (Nat.sub_le r _)), hminr, hminl]
      push_cast [Nat.cast_sub hls, Nat.cast_sub (le_of_lt h1)]
      ring
  · have hrs : r ≤ d.sync_complete := not_lt.mp h1
    have hminr : min r d.sync_complete = r := min_eq_left hrs
    have hminl : min d.last_raw d.sync_complete = d.last_raw :=
      min_eq_left (le_trans hlr hrs)
    rw [if_neg h1, u64sub_eq hlr hr, ccd_exact _ _ (hbt' _ (Nat.sub_le r _)),
      hminr, hminl]
    push_cast [Nat.cast_sub hlr]
    ring

/-- C6 amended: drift correction is path-independent for monotonically
    increasing raw inputs whenever both coefficients are exact integer
    multiples of 2^32 (integral rates, as in the spec's own scenario);
    with fractional coefficients the two computations may differ by the
    rounding the shift discards, as claim6_cex shows. -/
theorem claim6_amended (d : VdsoDat) (tk sk : Int) (r2 r3 : Nat)
    (htc : d.temp_cal = tk * 2 ^ 32) (hsc : d.cal = sk * 2 ^ 32)
    (h12 : d.last_raw ≤ r2) (h23 : r2 ≤ r3) (h3 : r3 < U64MOD)
    (hbt : r3 * tk.natAbs < 2 ^ 32) (hbs : r3 * sk.natAbs < 2 ^ 32) :
    clock_get_drift d r3 = clock_get_drift (clock_update_drift d r2).2 r3 := by
  by_cases hz : d.temp_cal = 0 ∧ d.cal = 0
  · simp [clock_get_drift, clock_update_drift, hz.1, hz.2]
  · have hr2 : r2 < U64MOD := lt_of_le_of_lt h23 h3
    have hbt2 : r2 * tk.natAbs < 2 ^ 32 := lt_of_le_of_lt (Nat.mul_le_mul_right _ h23) hbt
    have hbs2 : r2 * sk.natAbs < 2 ^ 32 := lt_of_le_of_lt (Nat.mul_le_mul_right _ h23) hbs
    have e1 := clock_get_drift_exact d tk sk r3 htc hsc hz (le_trans h12 h23) h3 hbt hbs
    have e2 := clock_get_drift_exact d tk sk r2 htc hsc hz h12 hr2 hbt2 hbs2
    have e3 := clock_get_drift_exact (clock_update_drift d r2).2 tk sk r3 htc hsc hz
      h23 h3 hbt hbs
    have hld : (clock_update_drift d r2).2.last_drift = clock_get_drift d r2 := rfl
    have hlraw : (clock_update_drift d r2).2.last_raw = r2 := rfl
    have hsync : (clock_update_drift d r2).2.sync_complete = d.sync_complete := rfl
    rw [e1, e3, hld, hlraw, hsync, e2]
    ring

/-- C6 counterexample: with steady coefficient 2^31 (rate 0.5) and raw
    readings 0 < 1 < 2, the drift computed directly at 2 is 1, while
    updating at the intermediate reading 1 and then computing at 2 gives
    0: the floor in the multiply-shift makes drift correction
    path-dependent. -/
theorem claim6_cex :
    clock_get_drift d6cex 2 = 1 ∧
    clock_get_drift (clock_update_drift d6cex 1).2 2 = 0 ∧
    clock_get_drift d6cex 2 ≠ clock_get_drift (clock_update_drift d6cex 1).2 2 := by
  refine ⟨by decide, by decide, by decide⟩

/-- C6 amended witness. -/
theorem claim6_amended_witness :
    clock_get_drift d6wit 100 = clock_get_drift (clock_update_drift d6wit 60).2 100 :=
  claim6_amended d6wit 2 3 60 100 (by decide) (by decide) (by decide) (by decide)
    (by decide) (by decide) (by decide)

/-- C7 counterexample: a time query with the raw-monotonic identifier at
    raw reading 10 leaves the calibration state untouched — last_raw
    stays 5 instead of being set to 10 — so not every clock identifier
    updates the Clock Calibration State. -/
theorem claim7_cex :
    (now clock_id.monotonic_raw 10 d7cex).2 = d7cex ∧ d7cex.last_raw ≠ 10 := by
  exact ⟨by decide, by decide⟩

/-- C7 amended: every time query with an identifier other than the raw
    monotonic one stores the current raw counter reading and the drift
    derived from it into the Clock Calibration State. -/
theorem claim7_amended (id : clock_id) (t : Nat) (d : VdsoDat)
    (h : id ≠ clock_id.monotonic_raw) :
    (now id t d).2.last_raw = t ∧ (now id t d).2.last_drift = clock_get_drift d t := by
  cases id <;> first
    | exact absurd rfl h
    | exact ⟨rfl, rfl⟩

/-- C7 amended witness. -/
theorem claim7_amended_witness :
    (now clock_id.monotonic 10 d7cex).2.last_raw = 10 ∧
    (now clock_id.monotonic 10 d7cex).2.last_drift = clock_get_drift d7cex 10 :=
  claim7_amended clock_id.monotonic 10 d7cex (by decide)

/-- C9: (re)registering the monotonic source resets calibration to
    neutral — both coefficients, the boundary, the last raw reading and
    the last drift all zero — and recomputes the wall-clock offset as
    (rtc_seconds << 32) minus the raw counter reading (stated without
    64-bit wrap-around), or zero when the real-time clock reports no
    time. -/
theorem claim9_reset (id id2 rt t t2 : Nat) (d d2 : VdsoDat)
    (hrt : rt ≠ 0) (hfit : rt * 2 ^ 32 < U64MOD) (hle : t ≤ rt * 2 ^ 32) :
    (register_platform_clock_now id rt t d).temp_cal = 0 ∧
    (register_platform_clock_now id rt t d).cal = 0 ∧
    (register_platform_clock_now id rt t d).sync_complete = 0 ∧
    (register_platform_clock_now id rt t d).last_raw = 0 ∧
    (register_platform_clock_now id rt t d).last_drift = 0 ∧
    (register_platform_clock_now id rt t d).clock_src = id ∧
    (register_platform_clock_now id rt t d).rtc_offset = rt * 2 ^ 32 - t ∧
    (register_platform_clock_now id2 0 t2 d2).rtc_offset = 0 := by
  unfold register_platform_clock_now reset_clock_vdso_dat
  refine ⟨rfl, rfl, rfl, rfl, rfl, rfl, ?_, by simp⟩
  show (if rt ≠ 0 then u64sub ((rt * 2 ^ 32) % U64MOD) t else 0) = rt * 2 ^ 32 - t
  rw [if_pos hrt, Nat.mod_eq_of_lt hfit, u64sub_eq hle hfit]

/-- C9 witness. -/
theorem claim9_reset_witness :
    (register_platform_clock_now 2 100 5 d7cex).temp_cal = 0 ∧
    (register_platform_clock_now 2 100 5 d7cex).cal = 0 ∧
    (register_platform_clock_now 2 100 5 d7cex).sync_complete = 0 ∧
    (register_platform_clock_now 2 100 5 d7cex).last_raw = 0 ∧
    (register_platform_clock_now 2 100 5 d7cex).last_drift = 0 ∧
    (register_platform_clock_now 2 100 5 d7cex).clock_src = 2 ∧
    (register_platform_clock_now 2 100 5 d7cex).rtc_offset = 100 * 2 ^ 32 - 5 ∧
    (register_platform_clock_now 3 0 7 d7cex).rtc_offset = 0 :=
  claim9_reset 2 3 100 5 7 d7cex d7cex (by decide) (by decide) (by decide)

/-- C10: with both drift coefficients zero the computed drift is exactly
    zero whatever the stored last raw reading and last drift are; hence a
    non-raw monotonic query returns the raw counter unchanged and a
    real-time query returns the raw counter plus the wall-clock offset
    (stated without 64-bit wrap-around). -/
theorem claim10_zero_cal (d : VdsoDat) (t raw : Nat) (id : clock_id)
    (htc : d.temp_cal = 0) (hc : d.cal = 0) (ht : t < U64MOD)
    (hoff : t + d.rtc_offset < U64MOD)
    (hraw : id ≠ clock_id.monotonic_raw) (hrt1 : id ≠ clock_id.realtime)
    (hrt2 : id ≠ clock_id.realtime_coarse) :
    clock_get_drift d raw = 0 ∧
    (now id t d).1 = t ∧
    (now clock_id.realtime t d).1 = t + d.rtc_offset ∧
    (now clock_id.realtime_coarse t d).1 = t + d.rtc_offset := by
  have hdrift : ∀ r : Nat, clock_get_drift d r = 0 := fun r => by
    unfold clock_get_drift
    rw [if_pos ⟨htc, hc⟩]
  refine ⟨hdrift raw, ?_, ?_, ?_⟩
  · cases id <;> first
      | exact absurd rfl hraw
      | exact absurd rfl hrt1
      | exact absurd rfl hrt2
      | (show u64addS t (clock_get_drift d t) = t
         rw [hdrift, u64addS_zero ht])
  · show (u64addS t (clock_get_drift d t) + d.rtc_offset) % U64MOD = t + d.rtc_offset
    rw [hdrift, u64addS_zero ht, Nat.mod_eq_of_lt hoff]
  · show (u64addS t (clock_get_drift d t) + d.rtc_offset) % U64MOD = t + d.rtc_offset
    rw [hdrift, u64addS_zero ht, Nat.mod_eq_of_lt hoff]

/-- C10 witness. -/
theorem claim10_zero_cal_witness :
    clock_get_drift d10wit 123 = 0 ∧
    (now clock_id.monotonic 50 d10wit).1 = 50 ∧
    (now clock_id.realtime 50 d10wit).1 = 50 + d10wit.rtc_offset ∧
    (now clock_id.realtime_coarse 50 d10wit).1 = 50 + d10wit.rtc_offset :=
  claim10_zero_cal d10wit 50 123 clock_id.monotonic rfl rfl (by decide) (by decide)
    (by decide) (by decide) (by decide)

/-- C2 witness. -/
theorem claim2_drift_piecewise_witness :
    clock_get_drift d2wit 2000 =
      spec_drift d2wit.last_drift d2wit.last_raw d2wit.sync_complete
        d2wit.temp_cal d2wit.cal 2000 :=
  claim2_drift_piecewise d2wit 2000 (by decide) (by decide) (by decide) (by decide)
    (by decide)

/- ------------------------------------------------------------------ -/
/- Registry helper lemmas.                                             -/
/- ------------------------------------------------------------------ -/

lemma register_handlers_at (s : IntState) (v t : Nat) :
    (register_interrupt s v t).handlers v = s.handlers v ++ [t] := by
  simp only [register_interrupt]
  split <;> simp

lemma register_inv (s : IntState) (v t : Nat) (hinv : IntInvariant s) :
    IntInvariant (register_interrupt s v t) := by
  intro w
  simp only [register_interrupt]
  split_ifs with hin
  · by_cases hw : w = v
    · subst hw
      simp [(hinv w).mpr hin]
    · simp [hw, hinv w]
  · by_cases hw : w = v
    · subst hw
      simp
    · simp [hw, hinv w]

lemma register_gic_shared (s : IntState) (v t : Nat) (hne : s.handlers v ≠ []) :
    (register_interrupt s v t).gic = s.gic := by
  simp only [register_interrupt]
  rw [if_pos hne]

lemma unregister_some_fields (s : IntState) (v : Nat) (s2 : IntState)
    (h : unregister_interrupt s v = some s2) :
    s2.handlers v = [] ∧ s2.gic.enabled v = false := by
  unfold unregister_interrupt at h
  split_ifs at h with he
  · injection h with h
    subst h
    simp

lemma unregister_inv (s : IntState) (v : Nat) (s2 : IntState) (hinv : IntInvariant s)
    (h : unregister_interrupt s v = some s2) : IntInvariant s2 := by
  unfold unregister_interrupt at h
  split_ifs at h with he
  · injection h with h
    subst h
    intro w
    by_cases hw : w = v
    · subst hw
      simp
    · simp [hw, hinv w]

lemma count_invoke_map (l : List Nat) (t : Nat) :
    (l.map IntEvent.invoke).count (IntEvent.invoke t) = l.count t := by
  induction l with
  | nil => rfl
  | cons a l ih => simp [List.count_cons, beq_iff_eq, ih]

lemma count_eoi_map (l : List Nat) (i : Nat) :
    (l.map IntEvent.invoke).count (IntEvent.eoi i) = 0 := by
  induction l with
  | nil => rfl
  | cons a l ih => simp [List.count_cons, ih]

/-- C1: registration appends to the vector's handler sequence, and one
    dispatched assertion of an id with a non-empty handler sequence
    produces exactly the handler invocations in registration order
    followed by exactly one end-of-interrupt for that id; each handler
    occurrence is invoked exactly as often as it was registered. -/
theorem claim1_dispatch_order (s : IntState) (v t h2 : Nat) (H : Nat → List Nat)
    (i : Nat) (hi : i < MAX_INTERRUPT_VECTORS) (hne : H i ≠ []) :
    (register_interrupt s v t).handlers v = s.handlers v ++ [t] ∧
    irq_handler_loop H [i] = some ((H i).map IntEvent.invoke ++ [IntEvent.eoi i]) ∧
    ((H i).map IntEvent.invoke ++ [IntEvent.eoi i]).count (IntEvent.invoke h2)
      = (H i).count h2 ∧
    ((H i).map IntEvent.invoke ++ [IntEvent.eoi i]).count (IntEvent.eoi i) = 1 := by
  refine ⟨register_handlers_at s v t, ?_, ?_, ?_⟩
  · unfold irq_handler_loop irq_dispatch_one
    rw [if_neg (not_le.mpr hi), if_neg hne]
    simp [irq_handler_loop]
  · rw [List.count_append, count_invoke_map]
    simp
  · rw [List.count_append, count_eoi_map]
    simp

/-- C1 witness. -/
theorem claim1_dispatch_order_witness :
    (register_interrupt s0wit 45 7).handlers 45 = s0wit.handlers 45 ++ [7] ∧
    irq_handler_loop H1wit [45]
      = some ((H1wit 45).map IntEvent.invoke ++ [IntEvent.eoi 45]) ∧
    ((H1wit 45).map IntEvent.invoke ++ [IntEvent.eoi 45]).count (IntEvent.invoke 7)
      = (H1wit 45).count 7 ∧
    ((H1wit 45).map IntEvent.invoke ++ [IntEvent.eoi 45]).count (IntEvent.eoi 45) = 1 :=
  claim1_dispatch_order s0wit 45 7 7 H1wit 45 (by decide) (by decide)

/-- C3: on a vector with no handlers, registering programs the controller
    (priority 0, pending cleared, line enabled); on a vector with
    handlers, registering leaves the controller untouched; a successful
    unregister empties the vector and disables its line; re-registering
    afterwards re-enables the line with cleared pending state; and every
    one of these operations preserves the enabled-iff-non-empty
    invariant. -/
theorem claim3_enabled_iff_nonempty
    (s s2 s3 s4 : IntState) (v v2 v3 t t2 t3 : Nat)
    (hinv : IntInvariant s) (hempty : s.handlers v = [])
    (hinv2 : IntInvariant s2) (hne : s2.handlers v2 ≠ [])
    (hinv3 : IntInvariant s3) (hun : unregister_interrupt s3 v3 = some s4) :
    IntInvariant (register_interrupt s v t) ∧
    (register_interrupt s v t).gic.priority v = 0 ∧
    (register_interrupt s v t).gic.pendingInt v = false ∧
    (register_interrupt s v t).gic.enabled v = true ∧
    IntInvariant (register_interrupt s2 v2 t2) ∧
    (register_interrupt s2 v2 t2).gic = s2.gic ∧
    IntInvariant s4 ∧
    s4.handlers v3 = [] ∧
    s4.gic.enabled v3 = false ∧
    (register_interrupt s4 v3 t3).gic.enabled v3 = true ∧
    (register_interrupt s4 v3 t3).gic.pendingInt v3 = false := by
  have hfirst : ∀ (u : IntState) (w r : Nat), u.handlers w = [] →
      (register_interrupt u w r).gic.priority w = 0 ∧
      (register_interrupt u w r).gic.pendingInt w = false ∧
      (register_interrupt u w r).gic.enabled w = true := by
    intro u w r hu
    simp only [register_interrupt]
    rw [if_neg (by simp [hu])]
    exact ⟨by simp, by simp, by simp⟩
  obtain ⟨hu1, hu2⟩ := unregister_some_fields s3 v3 s4 hun
  obtain ⟨hp, hpd, hen⟩ := hfirst s v t hempty
  obtain ⟨hp4, hpd4, hen4⟩ := hfirst s4 v3 t3 hu1
  exact ⟨register_inv s v t hinv, hp, hpd, hen,
    register_inv s2 v2 t2 hinv2, register_gic_shared s2 v2 t2 hne,
    unregister_inv s3 v3 s4 hinv3 hun, hu1, hu2, hen4, hpd4⟩

lemma s0wit_inv : IntInvariant s0wit := by
  intro w
  simp [IntInvariant, s0wit]

lemma s1wit_inv : IntInvariant s1wit := register_inv s0wit 45 7 s0wit_inv

/-- C3 witness. -/
theorem claim3_enabled_iff_nonempty_witness :
    IntInvariant (register_interrupt s0wit 45 7) ∧
    (register_interrupt s0wit 45 7).gic.priority 45 = 0 ∧
    (register_interrupt s0wit 45 7).gic.pendingInt 45 = false ∧
    (register_interrupt s0wit 45 7).gic.enabled 45 = true ∧
    IntInvariant (register_interrupt s1wit 45 9) ∧
    (register_interrupt s1wit 45 9).gic = s1wit.gic ∧
    IntInvariant s4wit ∧
    s4wit.handlers 45 = [] ∧
    s4wit.gic.enabled 45 = false ∧
    (register_interrupt s4wit 45 11).gic.enabled 45 = true ∧
    (register_interrupt s4wit 45 11).gic.pendingInt 45 = false :=
  claim3_enabled_iff_nonempty s0wit s1wit s1wit s4wit 45 45 45 7 9 11
    s0wit_inv (by decide) s1wit_inv (by decide) s1wit_inv rfl

/-- C5: the dispatcher halts exactly on a pending id at or beyond the
    supported vector range or on one whose handler sequence is empty, and
    unregister halts exactly when invoked on a vector with no registered
    handler: no other branch of these operations halts. -/
theorem claim5_fatal_conditions (H : Nat → List Nat) (i : Nat) (s : IntState) (v : Nat) :
    (irq_dispatch_one H i = none ↔ MAX_INTERRUPT_VECTORS ≤ i ∨ H i = []) ∧
    (unregister_interrupt s v = none ↔ s.handlers v = []) := by
  constructor
  · unfold irq_dispatch_one
    split_ifs with ha hb
    · simp [ha]
    · simp [hb]
    · simp [ha, hb]
  · unfold unregister_interrupt
    split_ifs with ha
    · simp [ha]
    · simp [ha]

/-- C4: the synchronous dispatcher takes the syscall path exactly when
    the trapped condition is an AArch64 supervisor call with a zero
    immediate operand; it then stores the syscall number taken from x8
    into the frame's vector slot, switches the per-core current frame to
    the kernel-context frame and transfers (without return) to the
    syscall entry with the original trapped frame as argument. -/
theorem claim4_syscall_path (ci ci2 : CpuState) (fhr fhr2 : Frame → Option Frame)
    (hsvc : is_svc_zero_imm (esr_from_frame ci2.running_frame)) :
    (is_syscall_outcome (synchronous_handler ci fhr) = true ↔
      is_svc_zero_imm (esr_from_frame ci.running_frame)) ∧
    synchronous_handler ci2 fhr2 = SyncOutcome.syscallTransfer
      { ci2.running_frame with vector := ci2.running_frame.x8 } ci2.kernel_frame := by
  constructor
  · simp only [synchronous_handler]
    split_ifs with h1 h2
    · simp [is_syscall_outcome, h1]
    · cases fhr ci.running_frame <;> simp [is_syscall_outcome, h1]
    · simp [is_syscall_outcome, h1]
  · simp only [synchronous_handler]
    rw [if_pos hsvc]

/-- C4 witness. -/
theorem claim4_syscall_path_witness :
    (is_syscall_outcome (synchronous_handler cpu_wit (fun _ => none)) = true ↔
      is_svc_zero_imm (esr_from_frame cpu_wit.running_frame)) ∧
    synchronous_handler cpu_wit (fun _ => none) = SyncOutcome.syscallTransfer
      { cpu_wit.running_frame with vector := cpu_wit.running_frame.x8 }
      cpu_wit.kernel_frame :=
  claim4_syscall_path cpu_wit cpu_wit (fun _ => none) (fun _ => none) (by decide)

set_option maxRecDepth 10000 in
/-- C8: on fully unmapped memory, the frame-pointer walk stops at its
    first validity check and dereferences nothing, but the raw-stack scan
    runs its full 128 entries and its very first dereference (here of
    address 4096) reads unmapped memory: print_stack performs no validity
    check before dereferencing, contradicting the claim (and the code's
    own XXX-fixme marker acknowledges the gap). -/
theorem claim8_stack_walks :
    frame_trace (fun _ => none) 8192 = [] ∧
    (print_stack_derefs (fun _ => none) 4096).length = 128 ∧
    (4096, (none : Option Nat)) ∈ print_stack_derefs (fun _ => none) 4096 := by
  refine ⟨rfl, by decide, by decide⟩

end Nanos
